import Mathlib

/-!
Verification of the sophia↔oxigraph adapter: a shallow embedding of
`src/term.rs` (term conversion), `src/once_toggle.rs` (the lazy memo cell),
and `src/connection.rs` (the dataset facade), with theorems settling the
frozen claims about the natural-language specification.

Machine integers are modelled as `Nat` with explicit bounds (`< 2^128` for
the 128-bit blank node identifiers).  Fallible Rust functions returning
`Result` are modelled with `Except`.  Interior mutability of the memo cell
is modelled by explicit state passing, and the `unwrap` panics of
`OnceToggle` by an `Option` result.
-/

/- ### Generic (sophia) term model -/

/-- A sophia IRI: the concatenated text plus the `is_absolute` flag that
`SIri::is_absolute` reports (sophia computes it at construction time;
`new_unchecked(_, true)` always sets it to `true`). -/
structure SIriL where
  value : String
  absolute : Bool
deriving DecidableEq, Repr

/-- A sophia literal (`sophia_term::literal::Literal`): either a
language-tagged literal (value and tag, no datatype field) or a typed
literal (value and datatype IRI). -/
inductive SLiteralL where
  | lang (value : String) (tag : String)
  | typed (value : String) (dt : SIriL)
deriving DecidableEq, Repr

/-- Source `Literal::value`/`txt`: the lexical value of a sophia literal. -/
def SLiteralL.value : SLiteralL → String
  | .lang v _ => v
  | .typed v _ => v

/-- A sophia term (`sophia_term::Term`). -/
inductive STermL where
  | iri (i : SIriL)
  | bnode (id : String)
  | lit (l : SLiteralL)
  | var (name : String)
deriving DecidableEq, Repr

/- ### Native (oxigraph) term model -/

/-- An oxigraph literal: `Simple` (plain `xsd:string`), language-tagged,
or typed.  `destruct` on these yields `(value, None, None)`,
`(value, None, Some tag)` and `(value, Some dt, None)` respectively. -/
inductive OLiteralN where
  | simple (value : String)
  | langTagged (value : String) (tag : String)
  | typed (value : String) (dt : String)
deriving DecidableEq, Repr

/-- Modelled from the spec: the backend's `Literal::new_typed_literal`
collapses the `xsd:string` datatype to the simple-literal form (its source
is outside this repository; §4.1 of the spec documents that a typed
literal carries its datatype verbatim and the native→generic direction
restores `xsd:string` for simple literals). -/
def OLiteralN.newTyped (value : String) (dt : String) : OLiteralN :=
  if dt = "http://www.w3.org/2001/XMLSchema#string" then .simple value
  else .typed value dt

/-- An oxigraph term (`oxigraph::model::Term`).  Named nodes are their IRI
string; blank nodes are their 128-bit identifier (a `Nat < 2^128` wherever
the adapter constructs one). -/
inductive OTermN where
  | namedNode (iri : String)
  | blankNode (id : Nat)
  | literal (l : OLiteralN)
deriving DecidableEq, Repr

/-- The type `oxigraph::model::NamedOrBlankNode`. -/
inductive NamedOrBlankNodeN where
  | namedNode (iri : String)
  | blankNode (id : Nat)
deriving DecidableEq, Repr

/-- The type `oxigraph::model::Quad` as built by the facade: subject, predicate,
object, and the optional named graph. -/
structure OQuadN where
  s : NamedOrBlankNodeN
  p : String
  o : OTermN
  g : Option NamedOrBlankNodeN
deriving DecidableEq, Repr

/- ### Blank-node identifier encoding (`src/term.rs`, lines 220–236) -/

/-- Whether a character is an ASCII hexadecimal digit, exactly the
characters accepted by Rust's `char::to_digit(16)`. -/
def isHexDigitB (c : Char) : Bool :=
  (48 ≤ c.toNat && c.toNat ≤ 57) ||
  (97 ≤ c.toNat && c.toNat ≤ 102) ||
  (65 ≤ c.toNat && c.toNat ≤ 70)

/-- The numeric value of an ASCII hex digit (unspecified junk elsewhere,
mirroring that Rust only consults it after the digit test). -/
def hexDigitVal (c : Char) : Nat :=
  if c.toNat ≤ 57 then c.toNat - 48
  else if 97 ≤ c.toNat then c.toNat - 87
  else c.toNat - 55

/-- Horner accumulation of hex digits, most significant first, as
`from_str_radix` performs it. -/
def hexFold (l : List Char) : Nat :=
  l.foldl (fun acc c => 16 * acc + hexDigitVal c) 0

/-- The digit phase of `u128::from_str_radix(_, 16)`: fails on an empty
digit string, on any non-hex-digit character, and on overflow.  The Rust
implementation fails at the first intermediate value `≥ 2^128`; since the
accumulator is monotone, that happens exactly when the total value is
`≥ 2^128`, which is the check used here. -/
def parseHexDigits (l : List Char) : Option Nat :=
  if l.isEmpty then none
  else if l.all isHexDigitB then
    if hexFold l < 2 ^ 128 then some (hexFold l) else none
  else none

/-- The character phase of `u128::from_str_radix(_, 16)`: an optional
single leading `'+'` is allowed (`'-'` is rejected for unsigned types
since it is not a digit), then a non-empty run of hex digits whose value
fits in 128 bits. -/
def fromStrRadix16Aux : List Char → Option Nat
  | [] => none
  | c :: rest => if c = '+' then parseHexDigits rest else parseHexDigits (c :: rest)

/-- Rust `u128::from_str_radix(s, 16)` on the string's characters. -/
def u128FromStrRadix16 (s : String) : Option Nat :=
  fromStrRadix16Aux s.data

/-- The number of bytes of the UTF-8 encoding of a character. -/
def utf8Len (c : Char) : Nat :=
  if c.toNat < 128 then 1
  else if c.toNat < 2048 then 2
  else if c.toNat < 65536 then 3
  else 4

/-- The UTF-8 encoding of a character, as a list of byte values. -/
def utf8Bytes (c : Char) : List Nat :=
  if c.toNat < 128 then [c.toNat]
  else if c.toNat < 2048 then
    [192 + c.toNat / 64, 128 + c.toNat % 64]
  else if c.toNat < 65536 then
    [224 + c.toNat / 4096, 128 + c.toNat / 64 % 64, 128 + c.toNat % 64]
  else
    [240 + c.toNat / 262144, 128 + c.toNat / 4096 % 64,
     128 + c.toNat / 64 % 64, 128 + c.toNat % 64]

/-- The UTF-8 bytes of a string; `value.len()` in Rust is the length of
this list. -/
def strBytes (s : String) : List Nat :=
  s.data.foldr (fun c acc => utf8Bytes c ++ acc) []

/-- The value of a byte list read little-endian (byte 0 least
significant). -/
def leVal (l : List Nat) : Nat :=
  l.foldr (fun b acc => b + 256 * acc) 0

/-- The `transmute::<[u8; 16], u128>` of the zero-padded byte buffer in
`src/term.rs` line 229: the string's bytes written at the low end of a
16-byte buffer, read as a native-endian (little-endian on the supported
platforms) 128-bit value.  Trailing zero padding contributes nothing, so
this is the little-endian value of the byte list. -/
def paddedId (s : String) : Nat :=
  leVal (strBytes s)

/-- Error type `ConversionError` from `src/term.rs` (payloads are the offending
strings, as in the source). -/
inductive ConversionError where
  | blankNode (id : String)
  | incompatibleBnodeId (id : String)
  | literal (value : String)
  | relativeIriRef (value : String)
  | varTerm (name : String)
deriving DecidableEq, Repr

/-- Impl `TryOxigraphize<OBlankNode> for SBlankNode` (`src/term.rs` 220–236):
first try `u128::from_str_radix(value, 16)`; else, if the identifier is at
most 16 bytes, zero-pad its bytes into a 16-byte buffer and transmute;
else fail with `IncompatibleBnodeId`. -/
def tryOxigraphizeBnode (id : String) : Except ConversionError Nat :=
  match u128FromStrRadix16 id with
  | some n => .ok n
  | none =>
    if (strBytes id).length ≤ 16 then .ok (paddedId id)
    else .error (.incompatibleBnodeId id)

/-- Modelled from the spec: the backend's `BlankNode::as_str` for a node
built by `new_from_unique_id` (oxigraph source, outside this repository).
Spec §3 names the canonical generic form of a native 128-bit id "a
32-hex-digit string parsed as the 128-bit value", so the identifier is
rendered as 32 lowercase hex digits. -/
def hexDigitChar (d : Nat) : Char :=
  if d < 10 then Char.ofNat (48 + d) else Char.ofNat (87 + d)

/-- The `k` low hex digits of `n`, most significant first. -/
def toHexDigits : Nat → Nat → List Char
  | 0, _ => []
  | k + 1, n => toHexDigits k (n / 16) ++ [hexDigitChar (n % 16)]

/-- Modelled from the spec: the generic identifier string exposed for a
native blank node with 128-bit id `n` (spec §3's 32-hex-digit canonical
form); `into_sophia_b` (`src/term.rs` 41–46) copies this string verbatim
into the generic blank node. -/
def blankNodeAsStr (n : Nat) : String :=
  ⟨toHexDigits 32 n⟩

/- ### IRI, literal and term conversion (`src/term.rs`) -/

/-- Impl `TryOxigraphize<NamedNode> for SIri` (`src/term.rs` 238–247). -/
def tryOxigraphizeIri (i : SIriL) : Except ConversionError String :=
  if !i.absolute then .error (.relativeIriRef i.value)
  else .ok i.value

/-- Rust `to_ascii_lowercase`: lowercase the ASCII letters only. -/
def asciiLower (s : String) : String :=
  ⟨s.data.map (fun c =>
    if 65 ≤ c.toNat ∧ c.toNat ≤ 90 then Char.ofNat (c.toNat + 32) else c)⟩

/-- Impl `TryOxigraphize<OLiteral> for SLiteral` (`src/term.rs` 249–260): a
language-tagged literal keeps its value, lowercases its tag and carries no
datatype; a typed literal requires its datatype IRI to convert. -/
def tryOxigraphizeLit (l : SLiteralL) : Except ConversionError OLiteralN :=
  match l with
  | .lang v tag => .ok (.langTagged v (asciiLower tag))
  | .typed v dt => (tryOxigraphizeIri dt).map (fun d => OLiteralN.newTyped v d)

/-- Impl `TryOxigraphize<OTerm> for STerm` (`src/term.rs` 262–271). -/
def tryOxigraphizeOT (t : STermL) : Except ConversionError OTermN :=
  match t with
  | .bnode b => (tryOxigraphizeBnode b).map OTermN.blankNode
  | .iri i => (tryOxigraphizeIri i).map OTermN.namedNode
  | .lit l => (tryOxigraphizeLit l).map OTermN.literal
  | .var v => .error (.varTerm v)

/-- Impl `TryOxigraphize<NamedOrBlankNode> for STerm` (`src/term.rs` 273–282). -/
def tryOxigraphizeNOB (t : STermL) : Except ConversionError NamedOrBlankNodeN :=
  match t with
  | .bnode b => (tryOxigraphizeBnode b).map NamedOrBlankNodeN.blankNode
  | .iri i => (tryOxigraphizeIri i).map NamedOrBlankNodeN.namedNode
  | .lit l => .error (.literal l.value)
  | .var v => .error (.varTerm v)

/-- Impl `TryOxigraphize<NamedNode> for STerm` (`src/term.rs` 284–293). -/
def tryOxigraphizeNN (t : STermL) : Except ConversionError String :=
  match t with
  | .bnode b => .error (.blankNode b)
  | .iri i => tryOxigraphizeIri i
  | .lit l => .error (.literal l.value)
  | .var v => .error (.varTerm v)

/-- Helper `try_oxi_graphname` (`src/connection.rs` 488–494): `None` (the default
graph) always converts to `None`; `Some term` converts the term as a
`NamedOrBlankNode`. -/
def tryOxiGraphname (g : Option STermL) :
    Except ConversionError (Option NamedOrBlankNodeN) :=
  match g with
  | none => .ok none
  | some t => (tryOxigraphizeNOB t).map some

/-- Method `into_sophia_l` (`src/term.rs` 112–123) after `destruct`: a simple
native literal becomes a typed generic literal with `xsd:string`, a typed
one keeps its datatype verbatim, a language-tagged one keeps its tag. -/
def intoSophiaLit (l : OLiteralN) : SLiteralL :=
  match l with
  | .simple v => .typed v ⟨"http://www.w3.org/2001/XMLSchema#string", true⟩
  | .typed v d => .typed v ⟨d, true⟩
  | .langTagged v t => .lang v t

/-- Returns `true` on `Ok` and `false` on `Err`. -/
def isOkE {ε α : Type} : Except ε α → Bool
  | .ok _ => true
  | .error _ => false

/-- Generic-to-native then native-to-generic on a blank-node identifier
string: `try_oxigraphize` followed by `into_sophia_b` of the resulting
native blank node. -/
def bnodeRoundTrip (s : String) : Except ConversionError String :=
  (tryOxigraphizeBnode s).map blankNodeAsStr

/- ### OnceToggle (`src/once_toggle.rs`) -/

/-- The cell `OnceToggle` / the spec's `LazyMemoCell`: `state1` holds the
unconverted value (a `RefCell<Option<T>>` in the source), `state2` the
converted one (an unsync `OnceCell<U>`). -/
structure OnceToggle (T U : Type) where
  state1 : Option T
  state2 : Option U

/-- Constructor `OnceToggle::new` (`src/once_toggle.rs` 31–36). -/
def OnceToggle.new {T U : Type} (v : T) : OnceToggle T U :=
  ⟨some v, none⟩

/-- Method `OnceToggle::get_or_toggle` (`src/once_toggle.rs` 128–139), with the
interior mutation made explicit: the call returns the converted value and
the updated cell, or `none` where the source would panic on
`state1.take().unwrap()` (both states empty — the documented inconsistent
state). -/
def OnceToggle.getOrToggle {T U : Type} (c : OnceToggle T U) (f : T → U) :
    Option (U × OnceToggle T U) :=
  match c.state2 with
  | some ret => some (ret, c)
  | none =>
    match c.state1 with
    | some t => some (f t, ⟨none, some (f t)⟩)
    | none => none

/- ### Arithmetic facts about the blank-node encodings -/

lemma hexDigitVal_le (c : Char) (h : isHexDigitB c = true) : hexDigitVal c ≤ 15 := by
  simp only [isHexDigitB, Bool.or_eq_true, Bool.and_eq_true, decide_eq_true_eq] at h
  unfold hexDigitVal
  split_ifs <;> omega

lemma hexDigitChar_spec (d : Nat) (h : d < 16) :
    isHexDigitB (hexDigitChar d) = true ∧ hexDigitVal (hexDigitChar d) = d := by
  interval_cases d <;> exact ⟨by decide, by decide⟩

lemma toHexDigits_all (k n : Nat) : (toHexDigits k n).all isHexDigitB = true := by
  induction k generalizing n with
  | zero => rfl
  | succ k ih =>
    have hd := (hexDigitChar_spec (n % 16) (Nat.mod_lt _ (by norm_num))).1
    simp [toHexDigits, List.all_append, ih, hd]

lemma toHexDigits_length (k n : Nat) : (toHexDigits k n).length = k := by
  induction k generalizing n with
  | zero => rfl
  | succ k ih => simp [toHexDigits, ih]

lemma digit_decomp (n k : Nat) :
    n % 16 ^ (k + 1) = 16 * (n / 16 % 16 ^ k) + n % 16 := by
  have key : n = 16 ^ (k + 1) * (n / 16 / 16 ^ k) +
      (16 * (n / 16 % 16 ^ k) + n % 16) := by
    calc n = 16 * (n / 16) + n % 16 := (Nat.div_add_mod n 16).symm
    _ = 16 * (16 ^ k * (n / 16 / 16 ^ k) + n / 16 % 16 ^ k) + n % 16 := by
        rw [Nat.div_add_mod (n / 16) (16 ^ k)]
    _ = 16 ^ (k + 1) * (n / 16 / 16 ^ k) + (16 * (n / 16 % 16 ^ k) + n % 16) := by
        ring
  conv_lhs => rw [key]
  rw [Nat.mul_add_mod]
  refine Nat.mod_eq_of_lt ?_
  have hR : n / 16 % 16 ^ k < 16 ^ k := Nat.mod_lt _ (Nat.pow_pos (by norm_num))
  have hr : n % 16 < 16 := Nat.mod_lt _ (by norm_num)
  have : 16 * (n / 16 % 16 ^ k) + 16 ≤ 16 * 16 ^ k := by omega
  calc 16 * (n / 16 % 16 ^ k) + n % 16 < 16 * (n / 16 % 16 ^ k) + 16 := by omega
  _ ≤ 16 * 16 ^ k := this
  _ = 16 ^ (k + 1) := by ring

lemma hexFold_toHexDigits (k n : Nat) : hexFold (toHexDigits k n) = n % 16 ^ k := by
  induction k generalizing n with
  | zero => simp [hexFold, toHexDigits, Nat.mod_one]
  | succ k ih =>
    have hv := (hexDigitChar_spec (n % 16) (Nat.mod_lt _ (by norm_num))).2
    have : hexFold (toHexDigits k (n / 16) ++ [hexDigitChar (n % 16)]) =
        16 * hexFold (toHexDigits k (n / 16)) + hexDigitVal (hexDigitChar (n % 16)) := by
      simp [hexFold, List.foldl_append]
    rw [toHexDigits, this, ih, hv, digit_decomp]

lemma hexFoldAux_lt (l : List Char) :
    ∀ acc : Nat, l.all isHexDigitB = true →
      l.foldl (fun a c => 16 * a + hexDigitVal c) acc < (acc + 1) * 16 ^ l.length := by
  induction l with
  | nil => intro acc _; simp
  | cons c l ih =>
    intro acc h
    simp only [List.all_cons, Bool.and_eq_true] at h
    have hv : hexDigitVal c ≤ 15 := hexDigitVal_le c h.1
    calc (c :: l).foldl (fun a c => 16 * a + hexDigitVal c) acc
        = l.foldl (fun a c => 16 * a + hexDigitVal c) (16 * acc + hexDigitVal c) := rfl
    _ < (16 * acc + hexDigitVal c + 1) * 16 ^ l.length := ih _ h.2
    _ ≤ (16 * (acc + 1)) * 16 ^ l.length := Nat.mul_le_mul_right _ (by omega)
    _ = (acc + 1) * 16 ^ (c :: l).length := by simp [List.length_cons]; ring

lemma hexFold_lt (l : List Char) (h : l.all isHexDigitB = true) :
    hexFold l < 16 ^ l.length := by
  have := hexFoldAux_lt l 0 h
  simpa [hexFold] using this

lemma parseHexDigits_eq (l : List Char) (h1 : l ≠ []) (h2 : l.all isHexDigitB = true)
    (h3 : hexFold l < 2 ^ 128) : parseHexDigits l = some (hexFold l) := by
  unfold parseHexDigits
  rw [if_neg (by simpa [List.isEmpty_iff] using h1), if_pos h2, if_pos h3]

lemma parseHexDigits_lt (l : List Char) (m : Nat) (h : parseHexDigits l = some m) :
    m < 2 ^ 128 := by
  unfold parseHexDigits at h
  split_ifs at h with e1 e2 e3
  · cases h; exact e3

lemma u128FromStrRadix16_lt (s : String) (m : Nat)
    (h : u128FromStrRadix16 s = some m) : m < 2 ^ 128 := by
  unfold u128FromStrRadix16 at h
  rcases hd : s.data with _ | ⟨c, rest⟩ <;> rw [hd] at h <;>
    simp only [fromStrRadix16Aux] at h
  · exact Option.noConfusion h
  · split_ifs at h <;> exact parseHexDigits_lt _ _ h

lemma u128FromStrRadix16_hex (s : String) (h1 : s.data ≠ [])
    (h2 : s.data.all isHexDigitB = true) (h3 : s.data.length ≤ 32) :
    u128FromStrRadix16 s = some (hexFold s.data) := by
  have hlt : hexFold s.data < 2 ^ 128 := by
    calc hexFold s.data < 16 ^ s.data.length := hexFold_lt _ h2
    _ ≤ 16 ^ 32 := Nat.pow_le_pow_right (by norm_num) h3
    _ = 2 ^ 128 := by norm_num
  unfold u128FromStrRadix16
  rcases hd : s.data with _ | ⟨c, rest⟩
  · exact absurd hd h1
  · rw [hd] at h2 hlt
    have hc : isHexDigitB c = true := by
      simp only [List.all_cons, Bool.and_eq_true] at h2
      exact h2.1
    have hcp : c ≠ '+' := by
      intro e
      rw [e] at hc
      exact absurd hc (by decide)
    simp only [fromStrRadix16Aux]
    rw [if_neg hcp]
    exact parseHexDigits_eq _ (by simp) h2 hlt

lemma utf8Bytes_lt (c : Char) : ∀ b ∈ utf8Bytes c, b < 256 := by
  intro b hb
  have hv : c.toNat < 1114112 := by
    rcases c.valid with h | h
    · exact Nat.lt_trans h (by norm_num)
    · exact h.2
  unfold utf8Bytes at hb
  split_ifs at hb with h1 h2 h3 <;>
    simp only [List.mem_cons, List.mem_singleton, List.not_mem_nil, or_false] at hb
  · omega
  · have d1 : c.toNat / 64 < 32 := Nat.div_lt_of_lt_mul (by omega)
    have m1 : c.toNat % 64 < 64 := Nat.mod_lt _ (by norm_num)
    rcases hb with hb | hb <;> omega
  · have d1 : c.toNat / 4096 < 16 := Nat.div_lt_of_lt_mul (by omega)
    have m1 : c.toNat / 64 % 64 < 64 := Nat.mod_lt _ (by norm_num)
    have m2 : c.toNat % 64 < 64 := Nat.mod_lt _ (by norm_num)
    rcases hb with hb | hb | hb <;> omega
  · have d1 : c.toNat / 262144 < 5 := Nat.div_lt_of_lt_mul (by omega)
    have m1 : c.toNat / 4096 % 64 < 64 := Nat.mod_lt _ (by norm_num)
    have m2 : c.toNat / 64 % 64 < 64 := Nat.mod_lt _ (by norm_num)
    have m3 : c.toNat % 64 < 64 := Nat.mod_lt _ (by norm_num)
    rcases hb with hb | hb | hb | hb <;> omega

lemma strBytesAux_lt (l : List Char) :
    ∀ b ∈ l.foldr (fun c acc => utf8Bytes c ++ acc) [], b < 256 := by
  induction l with
  | nil => intro b hb; simp at hb
  | cons c l ih =>
    intro b hb
    simp only [List.foldr_cons, List.mem_append] at hb
    rcases hb with hb | hb
    · exact utf8Bytes_lt c b hb
    · exact ih b hb

lemma strBytes_lt (s : String) : ∀ b ∈ strBytes s, b < 256 :=
  strBytesAux_lt s.data

lemma leVal_lt (l : List Nat) (h : ∀ b ∈ l, b < 256) : leVal l < 256 ^ l.length := by
  induction l with
  | nil => simp [leVal]
  | cons b l ih =>
    have hb : b < 256 := h b (List.mem_cons_self _ _)
    have hl := ih (fun x hx => h x (List.mem_cons_of_mem _ hx))
    have : 256 * (leVal l + 1) ≤ 256 * 256 ^ l.length := by omega
    calc leVal (b :: l) = b + 256 * leVal l := rfl
    _ < 256 ^ (b :: l).length := by
        simp only [List.length_cons, pow_succ]
        omega

lemma paddedId_lt (s : String) (h : (strBytes s).length ≤ 16) :
    paddedId s < 2 ^ 128 := by
  calc paddedId s < 256 ^ (strBytes s).length := leVal_lt _ (strBytes_lt s)
  _ ≤ 256 ^ 16 := Nat.pow_le_pow_right (by norm_num) h
  _ = 2 ^ 128 := by norm_num

lemma except_bind_ok {ε α β : Type} (x : α) (f : α → Except ε β) :
    Except.bind (Except.ok x) f = f x := rfl

lemma tryOxigraphizeBnode_eq_hex (s : String) (m : Nat)
    (hp : u128FromStrRadix16 s = some m) : tryOxigraphizeBnode s = .ok m := by
  simp only [tryOxigraphizeBnode, hp]

lemma tryOxigraphizeBnode_eq_padded (s : String)
    (hp : u128FromStrRadix16 s = none) (hl : (strBytes s).length ≤ 16) :
    tryOxigraphizeBnode s = .ok (paddedId s) := by
  simp only [tryOxigraphizeBnode, hp]
  rw [if_pos hl]

lemma tryOxigraphizeBnode_eq_err (s : String)
    (hp : u128FromStrRadix16 s = none) (hl : ¬ (strBytes s).length ≤ 16) :
    tryOxigraphizeBnode s = .error (.incompatibleBnodeId s) := by
  simp only [tryOxigraphizeBnode, hp]
  rw [if_neg hl]

lemma tryOxigraphizeBnode_lt (s : String) (n : Nat)
    (h : tryOxigraphizeBnode s = .ok n) : n < 2 ^ 128 := by
  rcases hp : u128FromStrRadix16 s with _ | m
  · by_cases hl : (strBytes s).length ≤ 16
    · rw [tryOxigraphizeBnode_eq_padded s hp hl] at h
      cases h
      exact paddedId_lt s hl
    · rw [tryOxigraphizeBnode_eq_err s hp hl] at h
      exact Except.noConfusion h
  · rw [tryOxigraphizeBnode_eq_hex s m hp] at h
    cases h
    exact u128FromStrRadix16_lt s _ hp

lemma blankNodeAsStr_parse (n : Nat) (h : n < 2 ^ 128) :
    u128FromStrRadix16 (blankNodeAsStr n) = some n := by
  have hd : (blankNodeAsStr n).data = toHexDigits 32 n := rfl
  have hne : (blankNodeAsStr n).data ≠ [] := by
    rw [hd]
    intro e
    have hlen := toHexDigits_length 32 n
    rw [e] at hlen
    simp at hlen
  have hall : (blankNodeAsStr n).data.all isHexDigitB = true := by
    rw [hd]
    exact toHexDigits_all 32 n
  have h32 : (blankNodeAsStr n).data.length ≤ 32 := by
    rw [hd, toHexDigits_length]
  rw [u128FromStrRadix16_hex (blankNodeAsStr n) hne hall h32, hd,
    hexFold_toHexDigits]
  have h16 : n < 16 ^ 32 := by
    have e : (16 : Nat) ^ 32 = 2 ^ 128 := by norm_num
    rw [e]
    exact h
  rw [Nat.mod_eq_of_lt h16]

lemma tryOxigraphizeBnode_asStr (n : Nat) (h : n < 2 ^ 128) :
    tryOxigraphizeBnode (blankNodeAsStr n) = .ok n :=
  tryOxigraphizeBnode_eq_hex _ n (blankNodeAsStr_parse n h)

lemma bnode_claim_domain_ok (s : String)
    (h : ((strBytes s).length ≤ 16 ∧ ∀ c ∈ s.data, c.toNat < 128) ∨
         (s.data.length = 32 ∧ s.data.all isHexDigitB = true)) :
    ∃ n, tryOxigraphizeBnode s = .ok n := by
  rcases h with ⟨hlen, _⟩ | ⟨h32, hall⟩
  · rcases hp : u128FromStrRadix16 s with _ | m
    · exact ⟨paddedId s, tryOxigraphizeBnode_eq_padded s hp hlen⟩
    · exact ⟨m, tryOxigraphizeBnode_eq_hex s m hp⟩
  · have hne : s.data ≠ [] := by
      intro e
      rw [e] at h32
      simp at h32
    exact ⟨hexFold s.data, tryOxigraphizeBnode_eq_hex s _
      (u128FromStrRadix16_hex s hne hall (le_of_eq h32))⟩

/- ### Claim C1, C2, C9 theorems -/

/-- Claim C1: for every blank-node identifier string of at most 16 ASCII
bytes, and for every 32-hex-digit identifier string, `generic_to_native`
succeeds, and the identifier obtained by converting back with
`native_to_generic` is observationally equal to the original: both
identifier strings are mapped by `generic_to_native` to the same native
blank node (the spec's "observational" equality, since e.g. `"a"` comes
back as its hex form and only the denoted 128-bit id is preserved). -/
theorem bnode_roundtrip_observational (s : String)
    (h : ((strBytes s).length ≤ 16 ∧ ∀ c ∈ s.data, c.toNat < 128) ∨
         (s.data.length = 32 ∧ s.data.all isHexDigitB = true)) :
    isOkE (bnodeRoundTrip s) = true ∧
    Except.bind (bnodeRoundTrip s) tryOxigraphizeBnode = tryOxigraphizeBnode s := by
  obtain ⟨n, hn⟩ := bnode_claim_domain_ok s h
  have hlt : n < 2 ^ 128 := tryOxigraphizeBnode_lt s n hn
  have hrt : bnodeRoundTrip s = .ok (blankNodeAsStr n) := by
    unfold bnodeRoundTrip
    rw [hn]
    rfl
  constructor
  · exact (congrArg isOkE hrt).trans rfl
  · have e1 : Except.bind (bnodeRoundTrip s) tryOxigraphizeBnode =
        Except.bind (Except.ok (blankNodeAsStr n)) tryOxigraphizeBnode :=
      congrArg (fun x => Except.bind x tryOxigraphizeBnode) hrt
    have e2 : Except.bind (Except.ok (blankNodeAsStr n)) tryOxigraphizeBnode =
        tryOxigraphizeBnode (blankNodeAsStr n) := except_bind_ok _ _
    exact e1.trans (e2.trans ((tryOxigraphizeBnode_asStr n hlt).trans hn.symm))

/-- Witness for C1 at the 5-byte ASCII identifier `"hello"`. -/
theorem bnode_roundtrip_observational_witness :
    ((strBytes "hello").length ≤ 16 ∧ ∀ c ∈ "hello".data, c.toNat < 128) ∧
    (isOkE (bnodeRoundTrip "hello") = true ∧
     Except.bind (bnodeRoundTrip "hello") tryOxigraphizeBnode =
       tryOxigraphizeBnode "hello") :=
  ⟨⟨by decide, by decide⟩,
   bnode_roundtrip_observational "hello" (Or.inl ⟨by decide, by decide⟩)⟩

/-- Counterexample to claim C2 as stated: the 17-byte identifier of
seventeen `'0'` characters is longer than 16 bytes and is not a
32-hex-digit string, yet `generic_to_native` accepts it (the hex path
takes any 1-to-32-digit hex string), instead of failing with
`IncompatibleBnodeId`. -/
theorem bnode_long_hex_accepted_cex :
    16 < (strBytes "00000000000000000").length ∧
    "00000000000000000".data.length ≠ 32 ∧
    tryOxigraphizeBnode "00000000000000000" = .ok 0 :=
  ⟨by decide, by decide, rfl⟩

/-- Claim C2 amended: for every identifier string longer than 16 bytes
that does not parse under `u128::from_str_radix(_, 16)` (an optional
leading `'+'` then hex digits with value below `2^128`),
`generic_to_native` fails with the `IncompatibleBnodeId` conversion error;
such a string is accepted by neither encoding path. -/
theorem bnode_long_nonhex_incompatible (s : String)
    (h1 : 16 < (strBytes s).length) (h2 : u128FromStrRadix16 s = none) :
    tryOxigraphizeBnode s = .error (.incompatibleBnodeId s) :=
  tryOxigraphizeBnode_eq_err s h2 (by omega)

/-- Witness for the amended C2 at a 20-byte non-hex identifier. -/
theorem bnode_long_nonhex_incompatible_witness :
    16 < (strBytes "not-a-hex-identifier").length ∧
    tryOxigraphizeBnode "not-a-hex-identifier" =
      .error (.incompatibleBnodeId "not-a-hex-identifier") :=
  ⟨by decide, bnode_long_nonhex_incompatible "not-a-hex-identifier" (by decide) rfl⟩

/-- Claim C9: the conversion tries the hexadecimal interpretation first
and that path accepts any 1-to-32-hex-digit identifier, so every
identifier consisting solely of hex digits (even one of at most 16 bytes)
converts to the native blank node whose 128-bit id is the number's value —
the Horner value of its digits — never to the zero-padded byte value. -/
theorem bnode_hex_path_first (s : String) (h1 : s.data ≠ [])
    (h2 : s.data.all isHexDigitB = true) (h3 : s.data.length ≤ 32) :
    tryOxigraphizeBnode s = .ok (hexFold s.data) :=
  tryOxigraphizeBnode_eq_hex s _ (u128FromStrRadix16_hex s h1 h2 h3)

/-- Witness for C9 at the 2-byte hex identifier `"ab"`: it converts to the
numeric value `0xab = 171` by the hex path, not to the zero-padded byte
value `0x6261 = 25185`. -/
theorem bnode_hex_path_first_witness :
    tryOxigraphizeBnode "ab" = .ok (hexFold "ab".data) ∧
    hexFold "ab".data = 171 ∧ paddedId "ab" = 25185 :=
  ⟨bnode_hex_path_first "ab" (by decide) (by decide) (by decide), rfl, rfl⟩

/- ### Claim C7 and C8 theorems -/

/-- Claim C7: for every generic literal carrying a language tag,
`generic_to_native` lowercases the tag, uses it, and carries no datatype
(the native result is the language-tagged form, which has no datatype
field); and the generic→native→generic round trip preserves the value and
yields the lowercased tag. -/
theorem literal_lang_roundtrip (v tag : String) :
    tryOxigraphizeLit (SLiteralL.lang v tag) =
      .ok (OLiteralN.langTagged v (asciiLower tag)) ∧
    intoSophiaLit (OLiteralN.langTagged v (asciiLower tag)) =
      SLiteralL.lang v (asciiLower tag) :=
  ⟨rfl, rfl⟩

/-- Claim C8: on a cell freshly holding an unconverted value, calling
`get_or_toggle` twice returns the same converted value `f t` both times,
and the conversion runs exactly once: the second call returns the cached
value without touching its function argument at all — it yields the same
result for an arbitrary `g`, with the cell unchanged. -/
theorem once_toggle_idempotent {T U : Type} (t : T) (f g : T → U) :
    (OnceToggle.new t).getOrToggle f =
      some (f t, ⟨none, some (f t)⟩) ∧
    (OnceToggle.mk (T := T) none (some (f t))).getOrToggle g =
      some (f t, ⟨none, some (f t)⟩) :=
  ⟨rfl, rfl⟩

/- ### Dataset facade (`src/connection.rs`) -/

/-- The backend error type (`oxigraph::Error`), passed through unchanged
and never inspected by the adapter. -/
structure OxigraphErrorM where
  msg : String
deriving DecidableEq, Repr

/-- Error type `MutationError` (`src/connection.rs` 512–529): either a backend error
or a term-conversion error. -/
inductive MutationErrorM where
  | oxigraph (e : OxigraphErrorM)
  | conversion (e : ConversionError)
deriving DecidableEq, Repr

/-- The iterator returned by a `quads_with_*` method, represented
symbolically by how the source constructs it: either a single call to the
backend's `quads_for_pattern` range scan with the given bound pattern
(`.scan`, the graph pattern using `some none` for "default graph only"),
or `Box::new(empty())` (`.emptySource`) — the empty sequence, produced
without invoking the backend and without any error. -/
inductive QuadSource where
  | scan (s : Option NamedOrBlankNodeN) (p : Option String) (o : Option OTermN)
      (g : Option (Option NamedOrBlankNodeN))
  | emptySource
deriving DecidableEq, Repr

/-- Method `quads_with_s` (`src/connection.rs` 56–68). -/
def quadsWithS (s : STermL) : QuadSource :=
  match tryOxigraphizeNOB s with
  | .ok sv => .scan (some sv) none none none
  | .error _ => .emptySource

/-- Method `quads_with_p` (`src/connection.rs` 70–82). -/
def quadsWithP (p : STermL) : QuadSource :=
  match tryOxigraphizeNN p with
  | .ok pv => .scan none (some pv) none none
  | .error _ => .emptySource

/-- Method `quads_with_o` (`src/connection.rs` 84–96). -/
def quadsWithO (o : STermL) : QuadSource :=
  match tryOxigraphizeOT o with
  | .ok ov => .scan none none (some ov) none
  | .error _ => .emptySource

/-- Method `quads_with_g` (`src/connection.rs` 98–110). -/
def quadsWithG (g : Option STermL) : QuadSource :=
  match tryOxiGraphname g with
  | .ok gv => .scan none none none (some gv)
  | .error _ => .emptySource

/-- Method `quads_with_sp` (`src/connection.rs` 112–125). -/
def quadsWithSP (s p : STermL) : QuadSource :=
  match tryOxigraphizeNOB s, tryOxigraphizeNN p with
  | .ok sv, .ok pv => .scan (some sv) (some pv) none none
  | _, _ => .emptySource

/-- Method `quads_with_so` (`src/connection.rs` 127–140). -/
def quadsWithSO (s o : STermL) : QuadSource :=
  match tryOxigraphizeNOB s, tryOxigraphizeOT o with
  | .ok sv, .ok ov => .scan (some sv) none (some ov) none
  | _, _ => .emptySource

/-- Method `quads_with_sg` (`src/connection.rs` 142–159). -/
def quadsWithSG (s : STermL) (g : Option STermL) : QuadSource :=
  match tryOxigraphizeNOB s, tryOxiGraphname g with
  | .ok sv, .ok gv => .scan (some sv) none none (some gv)
  | _, _ => .emptySource

/-- Method `quads_with_po` (`src/connection.rs` 161–174). -/
def quadsWithPO (p o : STermL) : QuadSource :=
  match tryOxigraphizeNN p, tryOxigraphizeOT o with
  | .ok pv, .ok ov => .scan none (some pv) (some ov) none
  | _, _ => .emptySource

/-- Method `quads_with_pg` (`src/connection.rs` 176–193). -/
def quadsWithPG (p : STermL) (g : Option STermL) : QuadSource :=
  match tryOxigraphizeNN p, tryOxiGraphname g with
  | .ok pv, .ok gv => .scan none (some pv) none (some gv)
  | _, _ => .emptySource

/-- Method `quads_with_og` (`src/connection.rs` 195–212). -/
def quadsWithOG (o : STermL) (g : Option STermL) : QuadSource :=
  match tryOxigraphizeOT o, tryOxiGraphname g with
  | .ok ov, .ok gv => .scan none none (some ov) (some gv)
  | _, _ => .emptySource

/-- Method `quads_with_spo` (`src/connection.rs` 214–237). -/
def quadsWithSPO (s p o : STermL) : QuadSource :=
  match tryOxigraphizeNOB s, tryOxigraphizeNN p, tryOxigraphizeOT o with
  | .ok sv, .ok pv, .ok ov => .scan (some sv) (some pv) (some ov) none
  | _, _, _ => .emptySource

/-- Method `quads_with_spg` (`src/connection.rs` 239–262). -/
def quadsWithSPG (s p : STermL) (g : Option STermL) : QuadSource :=
  match tryOxigraphizeNOB s, tryOxigraphizeNN p, tryOxiGraphname g with
  | .ok sv, .ok pv, .ok gv => .scan (some sv) (some pv) none (some gv)
  | _, _, _ => .emptySource

/-- Method `quads_with_sog` (`src/connection.rs` 264–287). -/
def quadsWithSOG (s o : STermL) (g : Option STermL) : QuadSource :=
  match tryOxigraphizeNOB s, tryOxigraphizeOT o, tryOxiGraphname g with
  | .ok sv, .ok ov, .ok gv => .scan (some sv) none (some ov) (some gv)
  | _, _, _ => .emptySource

/-- Method `quads_with_pog` (`src/connection.rs` 289–312). -/
def quadsWithPOG (p o : STermL) (g : Option STermL) : QuadSource :=
  match tryOxigraphizeNN p, tryOxigraphizeOT o, tryOxiGraphname g with
  | .ok pv, .ok ov, .ok gv => .scan none (some pv) (some ov) (some gv)
  | _, _, _ => .emptySource

/-- Method `quads_with_spog` (`src/connection.rs` 314–340). -/
def quadsWithSPOG (s p o : STermL) (g : Option STermL) : QuadSource :=
  match tryOxigraphizeNOB s, tryOxigraphizeNN p, tryOxigraphizeOT o,
      tryOxiGraphname g with
  | .ok sv, .ok pv, .ok ov, .ok gv => .scan (some sv) (some pv) (some ov) (some gv)
  | _, _, _, _ => .emptySource

/-- Method `contains` (`src/connection.rs` 342–364), with the backend membership
test `self.0.contains` abstracted as the function `B`. -/
def containsD (B : OQuadN → Except OxigraphErrorM Bool) (s p o : STermL)
    (g : Option STermL) : Except OxigraphErrorM Bool :=
  match tryOxigraphizeNOB s, tryOxigraphizeNN p, tryOxigraphizeOT o,
      tryOxiGraphname g with
  | .ok sv, .ok pv, .ok ov, .ok gv => B ⟨sv, pv, ov, gv⟩
  | _, _, _, _ => .ok false

/-- Method `insert` (`src/connection.rs` 431–450), with the backend write
`self.0.insert` abstracted as a state transformer `B` over an abstract
store state `σ`.  Each `?` on a conversion returns before the backend is
touched, carrying the conversion error into `MutationError`; after the
backend write the method returns `Ok(true)` unconditionally. -/
def insertD {σ : Type} (B : OQuadN → σ → σ × Except OxigraphErrorM Unit)
    (s p o : STermL) (g : Option STermL) (st : σ) :
    σ × Except MutationErrorM Bool :=
  match tryOxigraphizeNOB s with
  | .error e => (st, .error (.conversion e))
  | .ok sv =>
    match tryOxigraphizeNN p with
    | .error e => (st, .error (.conversion e))
    | .ok pv =>
      match tryOxigraphizeOT o with
      | .error e => (st, .error (.conversion e))
      | .ok ov =>
        match tryOxiGraphname g with
        | .error e => (st, .error (.conversion e))
        | .ok gv =>
          match B ⟨sv, pv, ov, gv⟩ st with
          | (st2, .ok _) => (st2, .ok true)
          | (st2, .error e) => (st2, .error (.oxigraph e))

/-- Method `remove` (`src/connection.rs` 452–475): computes all four conversions,
and only if all succeed calls the backend removal `B`; otherwise returns
`Ok(false)` without touching the backend. -/
def removeD {σ : Type} (B : OQuadN → σ → σ × Except OxigraphErrorM Unit)
    (s p o : STermL) (g : Option STermL) (st : σ) :
    σ × Except MutationErrorM Bool :=
  match tryOxigraphizeNOB s, tryOxigraphizeNN p, tryOxigraphizeOT o,
      tryOxiGraphname g with
  | .ok sv, .ok pv, .ok ov, .ok gv =>
    match B ⟨sv, pv, ov, gv⟩ st with
    | (st2, .ok _) => (st2, .ok true)
    | (st2, .error e) => (st2, .error (.oxigraph e))
  | _, _, _, _ => (st, .ok false)

/-- The first conversion error of the four positions, in the order
`insert` converts them (subject, predicate, object, graph); `none` when
all four convert. -/
def firstConvError (s p o : STermL) (g : Option STermL) : Option ConversionError :=
  match tryOxigraphizeNOB s with
  | .error e => some e
  | .ok _ =>
    match tryOxigraphizeNN p with
    | .error e => some e
    | .ok _ =>
      match tryOxigraphizeOT o with
      | .error e => some e
      | .ok _ =>
        match tryOxiGraphname g with
        | .error e => some e
        | .ok _ => none

/- ### Claim C3, C4, C5, C6, C10 theorems -/

/-- Claim C3: for each of the 15 bound-position pattern-iteration
variants, whenever at least one bound argument fails `generic_to_native`
conversion, the method returns `Box::new(empty())` — the empty sequence —
rather than an error, and the backend's `quads_for_pattern` range scan is
not invoked (the `.emptySource` result carries no scan and no error by
construction). -/
theorem pattern_conversion_failure_empty :
    (∀ s, isOkE (tryOxigraphizeNOB s) = false → quadsWithS s = .emptySource) ∧
    (∀ p, isOkE (tryOxigraphizeNN p) = false → quadsWithP p = .emptySource) ∧
    (∀ o, isOkE (tryOxigraphizeOT o) = false → quadsWithO o = .emptySource) ∧
    (∀ g, isOkE (tryOxiGraphname g) = false → quadsWithG g = .emptySource) ∧
    (∀ s p, isOkE (tryOxigraphizeNOB s) = false ∨ isOkE (tryOxigraphizeNN p) = false →
      quadsWithSP s p = .emptySource) ∧
    (∀ s o, isOkE (tryOxigraphizeNOB s) = false ∨ isOkE (tryOxigraphizeOT o) = false →
      quadsWithSO s o = .emptySource) ∧
    (∀ s g, isOkE (tryOxigraphizeNOB s) = false ∨ isOkE (tryOxiGraphname g) = false →
      quadsWithSG s g = .emptySource) ∧
    (∀ p o, isOkE (tryOxigraphizeNN p) = false ∨ isOkE (tryOxigraphizeOT o) = false →
      quadsWithPO p o = .emptySource) ∧
    (∀ p g, isOkE (tryOxigraphizeNN p) = false ∨ isOkE (tryOxiGraphname g) = false →
      quadsWithPG p g = .emptySource) ∧
    (∀ o g, isOkE (tryOxigraphizeOT o) = false ∨ isOkE (tryOxiGraphname g) = false →
      quadsWithOG o g = .emptySource) ∧
    (∀ s p o, isOkE (tryOxigraphizeNOB s) = false ∨ isOkE (tryOxigraphizeNN p) = false ∨
      isOkE (tryOxigraphizeOT o) = false → quadsWithSPO s p o = .emptySource) ∧
    (∀ s p g, isOkE (tryOxigraphizeNOB s) = false ∨ isOkE (tryOxigraphizeNN p) = false ∨
      isOkE (tryOxiGraphname g) = false → quadsWithSPG s p g = .emptySource) ∧
    (∀ s o g, isOkE (tryOxigraphizeNOB s) = false ∨ isOkE (tryOxigraphizeOT o) = false ∨
      isOkE (tryOxiGraphname g) = false → quadsWithSOG s o g = .emptySource) ∧
    (∀ p o g, isOkE (tryOxigraphizeNN p) = false ∨ isOkE (tryOxigraphizeOT o) = false ∨
      isOkE (tryOxiGraphname g) = false → quadsWithPOG p o g = .emptySource) ∧
    (∀ s p o g, isOkE (tryOxigraphizeNOB s) = false ∨ isOkE (tryOxigraphizeNN p) = false ∨
      isOkE (tryOxigraphizeOT o) = false ∨ isOkE (tryOxiGraphname g) = false →
      quadsWithSPOG s p o g = .emptySource) := by
  refine ⟨?_, ?_, ?_, ?_, ?_, ?_, ?_, ?_, ?_, ?_, ?_, ?_, ?_, ?_, ?_⟩
  · intro s h
    rcases hs : tryOxigraphizeNOB s with es | vs <;> rw [hs] at h <;>
      simp_all [quadsWithS, isOkE]
  · intro p h
    rcases hp : tryOxigraphizeNN p with ep | vp <;> rw [hp] at h <;>
      simp_all [quadsWithP, isOkE]
  · intro o h
    rcases ho : tryOxigraphizeOT o with eo | vo <;> rw [ho] at h <;>
      simp_all [quadsWithO, isOkE]
  · intro g h
    rcases hg : tryOxiGraphname g with eg | vg <;> rw [hg] at h <;>
      simp_all [quadsWithG, isOkE]
  · intro s p h
    rcases hs : tryOxigraphizeNOB s with es | vs <;>
      rcases hp : tryOxigraphizeNN p with ep | vp <;>
      rw [hs, hp] at h <;> simp_all [quadsWithSP, isOkE]
  · intro s o h
    rcases hs : tryOxigraphizeNOB s with es | vs <;>
      rcases ho : tryOxigraphizeOT o with eo | vo <;>
      rw [hs, ho] at h <;> simp_all [quadsWithSO, isOkE]
  · intro s g h
    rcases hs : tryOxigraphizeNOB s with es | vs <;>
      rcases hg : tryOxiGraphname g with eg | vg <;>
      rw [hs, hg] at h <;> simp_all [quadsWithSG, isOkE]
  · intro p o h
    rcases hp : tryOxigraphizeNN p with ep | vp <;>
      rcases ho : tryOxigraphizeOT o with eo | vo <;>
      rw [hp, ho] at h <;> simp_all [quadsWithPO, isOkE]
  · intro p g h
    rcases hp : tryOxigraphizeNN p with ep | vp <;>
      rcases hg : tryOxiGraphname g with eg | vg <;>
      rw [hp, hg] at h <;> simp_all [quadsWithPG, isOkE]
  · intro o g h
    rcases ho : tryOxigraphizeOT o with eo | vo <;>
      rcases hg : tryOxiGraphname g with eg | vg <;>
      rw [ho, hg] at h <;> simp_all [quadsWithOG, isOkE]
  · intro s p o h
    rcases hs : tryOxigraphizeNOB s with es | vs <;>
      rcases hp : tryOxigraphizeNN p with ep | vp <;>
      rcases ho : tryOxigraphizeOT o with eo | vo <;>
      rw [hs, hp, ho] at h <;> simp_all [quadsWithSPO, isOkE]
  · intro s p g h
    rcases hs : tryOxigraphizeNOB s with es | vs <;>
      rcases hp : tryOxigraphizeNN p with ep | vp <;>
      rcases hg : tryOxiGraphname g with eg | vg <;>
      rw [hs, hp, hg] at h <;> simp_all [quadsWithSPG, isOkE]
  · intro s o g h
    rcases hs : tryOxigraphizeNOB s with es | vs <;>
      rcases ho : tryOxigraphizeOT o with eo | vo <;>
      rcases hg : tryOxiGraphname g with eg | vg <;>
      rw [hs, ho, hg] at h <;> simp_all [quadsWithSOG, isOkE]
  · intro p o g h
    rcases hp : tryOxigraphizeNN p with ep | vp <;>
      rcases ho : tryOxigraphizeOT o with eo | vo <;>
      rcases hg : tryOxiGraphname g with eg | vg <;>
      rw [hp, ho, hg] at h <;> simp_all [quadsWithPOG, isOkE]
  · intro s p o g h
    rcases hs : tryOxigraphizeNOB s with es | vs <;>
      rcases hp : tryOxigraphizeNN p with ep | vp <;>
      rcases ho : tryOxigraphizeOT o with eo | vo <;>
      rcases hg : tryOxiGraphname g with eg | vg <;>
      rw [hs, hp, ho, hg] at h <;> simp_all [quadsWithSPOG, isOkE]

/-- Witness for C3: a Variable bound in subject position, and a Variable
bound in graph position of the fully bound variant, both yield the empty
sequence. -/
theorem pattern_conversion_failure_empty_witness :
    quadsWithS (STermL.var "x") = .emptySource ∧
    quadsWithSPOG (STermL.iri ⟨"http://example.org/a", true⟩)
      (STermL.iri ⟨"http://example.org/b", true⟩)
      (STermL.lit (.typed "42" ⟨"http://www.w3.org/2001/XMLSchema#integer", true⟩))
      (some (STermL.var "g")) = .emptySource :=
  ⟨pattern_conversion_failure_empty.1 (STermL.var "x") rfl,
   (pattern_conversion_failure_empty.2.2.2.2.2.2.2.2.2.2.2.2.2.2)
     (STermL.iri ⟨"http://example.org/a", true⟩)
     (STermL.iri ⟨"http://example.org/b", true⟩)
     (STermL.lit (.typed "42" ⟨"http://www.w3.org/2001/XMLSchema#integer", true⟩))
     (some (STermL.var "g"))
     (Or.inr (Or.inr (Or.inr rfl)))⟩

/-- Claim C4: `contains` returns `Ok(false)` whenever any of the four
positions fails conversion (s as `NamedOrBlankNode`, p as `NamedNode`, o
as `Term`, g as graph name), e.g. for a Variable anywhere or a blank node
in predicate position; and when all four convert it delegates to the
backend's native membership test, returning its result unchanged. -/
theorem contains_conversion_policy :
    (∀ B s p o g,
      isOkE (tryOxigraphizeNOB s) = false ∨ isOkE (tryOxigraphizeNN p) = false ∨
        isOkE (tryOxigraphizeOT o) = false ∨ isOkE (tryOxiGraphname g) = false →
      containsD B s p o g = .ok false) ∧
    (∀ B s p o g sv pv ov gv,
      tryOxigraphizeNOB s = .ok sv → tryOxigraphizeNN p = .ok pv →
      tryOxigraphizeOT o = .ok ov → tryOxiGraphname g = .ok gv →
      containsD B s p o g = B ⟨sv, pv, ov, gv⟩) := by
  constructor
  · intro B s p o g h
    rcases hs : tryOxigraphizeNOB s with es | vs <;>
      rcases hp : tryOxigraphizeNN p with ep | vp <;>
      rcases ho : tryOxigraphizeOT o with eo | vo <;>
      rcases hg : tryOxiGraphname g with eg | vg <;>
      rw [hs, hp, ho, hg] at h <;> simp_all [containsD, isOkE]
  · intro B s p o g sv pv ov gv hs hp ho hg
    simp [containsD, hs, hp, ho, hg]

/-- A sample backend membership test used by witnesses. -/
def exBackendContains : OQuadN → Except OxigraphErrorM Bool :=
  fun _ => .ok true

/-- Witness for C4: a blank node in predicate position yields `Ok(false)`;
a fully convertible pattern delegates to the backend. -/
theorem contains_conversion_policy_witness :
    containsD exBackendContains (STermL.iri ⟨"http://example.org/a", true⟩)
      (STermL.bnode "xyz~b") (STermL.lit (.lang "chat" "FR")) none = .ok false ∧
    containsD exBackendContains (STermL.iri ⟨"http://example.org/a", true⟩)
      (STermL.iri ⟨"http://example.org/b", true⟩)
      (STermL.lit (.lang "chat" "FR")) none =
      exBackendContains ⟨.namedNode "http://example.org/a", "http://example.org/b",
        .literal (.langTagged "chat" "fr"), none⟩ :=
  ⟨contains_conversion_policy.1 exBackendContains _ _ _ _ (Or.inr (Or.inl rfl)),
   contains_conversion_policy.2 exBackendContains _ _ _ _ _ _ _ _ rfl rfl rfl rfl⟩

/-- Claim C5: `insert` propagates the specific `ConversionError` of the
first failing position (and some position fails exactly when
`firstConvError` is not `none`); when all four positions convert it
delegates to the backend write, leaving the final state to the backend,
and on backend success reports `Ok(true)` unconditionally (never `false`,
whether or not the quad was already present); a backend error is wrapped
as a `MutationError`. -/
theorem insert_conversion_policy :
    (∀ s p o g,
      (isOkE (tryOxigraphizeNOB s) = false ∨ isOkE (tryOxigraphizeNN p) = false ∨
        isOkE (tryOxigraphizeOT o) = false ∨ isOkE (tryOxiGraphname g) = false) ↔
      firstConvError s p o g ≠ none) ∧
    (∀ (σ : Type) (B : OQuadN → σ → σ × Except OxigraphErrorM Unit) s p o g st e,
      firstConvError s p o g = some e →
      insertD B s p o g st = (st, .error (.conversion e))) ∧
    (∀ (σ : Type) (B : OQuadN → σ → σ × Except OxigraphErrorM Unit)
        s p o g st sv pv ov gv st2 u,
      tryOxigraphizeNOB s = .ok sv → tryOxigraphizeNN p = .ok pv →
      tryOxigraphizeOT o = .ok ov → tryOxiGraphname g = .ok gv →
      B ⟨sv, pv, ov, gv⟩ st = (st2, .ok u) →
      insertD B s p o g st = (st2, .ok true)) ∧
    (∀ (σ : Type) (B : OQuadN → σ → σ × Except OxigraphErrorM Unit)
        s p o g st sv pv ov gv st2 e2,
      tryOxigraphizeNOB s = .ok sv → tryOxigraphizeNN p = .ok pv →
      tryOxigraphizeOT o = .ok ov → tryOxiGraphname g = .ok gv →
      B ⟨sv, pv, ov, gv⟩ st = (st2, .error e2) →
      insertD B s p o g st = (st2, .error (.oxigraph e2))) := by
  refine ⟨?_, ?_, ?_, ?_⟩
  · intro s p o g
    rcases hs : tryOxigraphizeNOB s with es | vs <;>
      rcases hp : tryOxigraphizeNN p with ep | vp <;>
      rcases ho : tryOxigraphizeOT o with eo | vo <;>
      rcases hg : tryOxiGraphname g with eg | vg <;>
      simp_all [firstConvError, isOkE]
  · intro σ B s p o g st e h
    rcases hs : tryOxigraphizeNOB s with es | vs <;>
      rcases hp : tryOxigraphizeNN p with ep | vp <;>
      rcases ho : tryOxigraphizeOT o with eo | vo <;>
      rcases hg : tryOxiGraphname g with eg | vg <;>
      rw [firstConvError, hs] at h <;>
      simp_all [insertD]
  · intro σ B s p o g st sv pv ov gv st2 u hs hp ho hg hB
    simp [insertD, hs, hp, ho, hg, hB]
  · intro σ B s p o g st sv pv ov gv st2 e2 hs hp ho hg hB
    simp [insertD, hs, hp, ho, hg, hB]

/-- A sample backend write used by witnesses: it counts the write calls
in a `Nat` state and always succeeds. -/
def exBackendWrite : OQuadN → Nat → Nat × Except OxigraphErrorM Unit :=
  fun _ st => (st + 1, .ok ())

/-- Witness for C5: inserting with a Variable subject propagates the
conversion error and performs no backend write; inserting a convertible
quad performs the write and reports `Ok(true)`. -/
theorem insert_conversion_policy_witness :
    firstConvError (STermL.var "x") (STermL.iri ⟨"http://example.org/b", true⟩)
      (STermL.lit (.lang "chat" "FR")) none ≠ none ∧
    insertD exBackendWrite (STermL.var "x")
      (STermL.iri ⟨"http://example.org/b", true⟩)
      (STermL.lit (.lang "chat" "FR")) none 0 =
      (0, .error (.conversion (.varTerm "x"))) ∧
    insertD exBackendWrite (STermL.iri ⟨"http://example.org/a", true⟩)
      (STermL.iri ⟨"http://example.org/b", true⟩)
      (STermL.lit (.lang "chat" "FR")) none 0 = (1, .ok true) :=
  ⟨(insert_conversion_policy.1 _ _ _ _).mp (Or.inl rfl),
   insert_conversion_policy.2.1 Nat exBackendWrite _ _ _ _ 0 _ rfl,
   insert_conversion_policy.2.2.1 Nat exBackendWrite _ _ _ _ 0
     (.namedNode "http://example.org/a") "http://example.org/b"
     (.literal (.langTagged "chat" "fr")) none 1 () rfl rfl rfl rfl rfl⟩

/-- Claim C6: `remove` swallows conversion failures — when any of the four
positions fails to convert it returns `Ok(false)` (and does not touch the
backend, leaving the state unchanged); when all four convert it delegates
to the backend removal call. -/
theorem remove_conversion_policy :
    (∀ (σ : Type) (B : OQuadN → σ → σ × Except OxigraphErrorM Unit) s p o g st,
      isOkE (tryOxigraphizeNOB s) = false ∨ isOkE (tryOxigraphizeNN p) = false ∨
        isOkE (tryOxigraphizeOT o) = false ∨ isOkE (tryOxiGraphname g) = false →
      removeD B s p o g st = (st, .ok false)) ∧
    (∀ (σ : Type) (B : OQuadN → σ → σ × Except OxigraphErrorM Unit)
        s p o g st sv pv ov gv st2 u,
      tryOxigraphizeNOB s = .ok sv → tryOxigraphizeNN p = .ok pv →
      tryOxigraphizeOT o = .ok ov → tryOxiGraphname g = .ok gv →
      B ⟨sv, pv, ov, gv⟩ st = (st2, .ok u) →
      removeD B s p o g st = (st2, .ok true)) ∧
    (∀ (σ : Type) (B : OQuadN → σ → σ × Except OxigraphErrorM Unit)
        s p o g st sv pv ov gv st2 e2,
      tryOxigraphizeNOB s = .ok sv → tryOxigraphizeNN p = .ok pv →
      tryOxigraphizeOT o = .ok ov → tryOxiGraphname g = .ok gv →
      B ⟨sv, pv, ov, gv⟩ st = (st2, .error e2) →
      removeD B s p o g st = (st2, .error (.oxigraph e2))) := by
  refine ⟨?_, ?_, ?_⟩
  · intro σ B s p o g st h
    rcases hs : tryOxigraphizeNOB s with es | vs <;>
      rcases hp : tryOxigraphizeNN p with ep | vp <;>
      rcases ho : tryOxigraphizeOT o with eo | vo <;>
      rcases hg : tryOxiGraphname g with eg | vg <;>
      rw [hs, hp, ho, hg] at h <;> simp_all [removeD, isOkE]
  · intro σ B s p o g st sv pv ov gv st2 u hs hp ho hg hB
    simp [removeD, hs, hp, ho, hg, hB]
  · intro σ B s p o g st sv pv ov gv st2 e2 hs hp ho hg hB
    simp [removeD, hs, hp, ho, hg, hB]

/-- Witness for C6: removing with a Variable object reports `Ok(false)`
with the conversion error swallowed and the store untouched; removing a
convertible quad delegates to the backend call. -/
theorem remove_conversion_policy_witness :
    removeD exBackendWrite (STermL.iri ⟨"http://example.org/a", true⟩)
      (STermL.iri ⟨"http://example.org/b", true⟩) (STermL.var "o") none 0 =
      (0, .ok false) ∧
    removeD exBackendWrite (STermL.iri ⟨"http://example.org/a", true⟩)
      (STermL.iri ⟨"http://example.org/b", true⟩)
      (STermL.lit (.lang "chat" "FR")) none 0 = (1, .ok true) :=
  ⟨remove_conversion_policy.1 Nat exBackendWrite _ _ _ _ 0
     (Or.inr (Or.inr (Or.inl rfl))),
   remove_conversion_policy.2.1 Nat exBackendWrite _ _ _ _ 0
     (.namedNode "http://example.org/a") "http://example.org/b"
     (.literal (.langTagged "chat" "fr")) none 1 () rfl rfl rfl rfl rfl⟩

/-- Claim C10: `insert` is atomic on conversion failure — whenever it
returns a `ConversionError`, the conversion `?` returned before the
backend write was reached, so the store state is unchanged. -/
theorem insert_no_write_on_conversion_error (σ : Type)
    (B : OQuadN → σ → σ × Except OxigraphErrorM Unit)
    (s p o : STermL) (g : Option STermL) (st : σ) (e : ConversionError)
    (h : (insertD B s p o g st).2 = .error (.conversion e)) :
    (insertD B s p o g st).1 = st := by
  rcases hs : tryOxigraphizeNOB s with es | vs <;>
    rcases hp : tryOxigraphizeNN p with ep | vp <;>
    rcases ho : tryOxigraphizeOT o with eo | vo <;>
    rcases hg : tryOxiGraphname g with eg | vg <;>
    simp_all [insertD]
  rcases hB : B ⟨vs, vp, vo, vg⟩ st with ⟨st2, r⟩
  rcases r with u | e2 <;> simp_all

/-- Witness for C10 at a Variable subject: the failed insert leaves the
store state `0` unchanged. -/
theorem insert_no_write_on_conversion_error_witness :
    (insertD exBackendWrite (STermL.var "x")
      (STermL.iri ⟨"http://example.org/b", true⟩)
      (STermL.lit (.lang "chat" "FR")) none 0).1 = 0 :=
  insert_no_write_on_conversion_error Nat exBackendWrite _ _ _ _ 0
    (.varTerm "x") rfl
